import Mathlib

/- Verification development for the cursorIM instant-messaging backend.
   Each definition below is a shallow embedding of one function of the Go
   source tree (internal/protocol, internal/chat, internal/connection,
   internal/server); the theorems at the end settle the frozen claims
   C1 .. C10 about the real-time delivery plane. -/

/-- Model of the on-wire record `protocol.Message`
(internal/protocol/message.go, the full struct with protocol metadata).
The Go fields `CreatedAt` and `UpdatedAt` carry the json tag "-", never
cross the wire and are derived from `Timestamp` on the Protobuf decode
path; they are omitted here.  `Error.Details` has Go type `any` but the
code only ever stores a string or nil in it, modelled as `Option String`
(`none` = Go nil).  `Metadata` is a Go `map[string]string`, modelled as
its canonical association list. -/
structure Message where
  version : String := ""
  type : String := ""
  statusCode : Int := 0
  errorCode : String := ""
  requestID : String := ""
  id : String := ""
  senderID : String := ""
  recipientID : String := ""
  content : String := ""
  timestamp : Int := 0
  conversationID : String := ""
  isGroup : Bool := false
  groupID : String := ""
  status : String := ""
  handledByLocal : Bool := false
  errMessage : String := ""
  errDetails : Option String := none
  metadata : List (String × String) := []
  deriving Repr, DecidableEq

/-- Enum `pb.MessageType` of proto/message.proto. -/
inductive MessageType where
  | unknown | text | image | file | audio | video
  | ping | pong | status | command | response | error
  deriving Repr, DecidableEq

/-- Enum `pb.MessageStatus` of proto/message.proto. -/
inductive MessageStatus where
  | unknown | sent | delivered | read | failed
  deriving Repr, DecidableEq

/-- Model of the field `pb.ErrorInfo`. -/
structure PbErrorInfo where
  message : String := ""
  details : String := ""
  deriving Repr, DecidableEq

/-- Model of the generated `pb.Message` struct.  The proto3 wire encoding
is injective on this struct (defaults and absent fields coincide in
proto3), so the struct itself stands for its `proto.Marshal` image. -/
structure PbMessage where
  version : String := ""
  type : MessageType := .unknown
  statusCode : Int := 0
  errorCode : String := ""
  requestId : String := ""
  id : String := ""
  senderId : String := ""
  recipientId : String := ""
  content : String := ""
  timestamp : Int := 0
  conversationId : String := ""
  isGroup : Bool := false
  groupId : String := ""
  status : MessageStatus := .unknown
  handledByLocal : Bool := false
  error : Option PbErrorInfo := none
  metadata : List (String × String) := []
  deriving Repr, DecidableEq

/-- Go `strings.ToLower`, restricted to the ASCII strings the adapter
compares against (Char.toLower lowercases exactly the ASCII range). -/
def goToLower (s : String) : String :=
  String.mk (s.data.map Char.toLower)

/-- Go conversion `int32(n)` from `int` (64-bit): two-complement wrap
into [-2147483648, 2147483648). -/
def toInt32 (n : Int) : Int :=
  (n + 2147483648) % 4294967296 - 2147483648

/-- MessageAdapter.stringToMessageType (internal/protocol/adapter.go):
note that both "message" and "text" map to the TEXT enum value. -/
def stringToMessageType (typeStr : String) : MessageType :=
  let t := goToLower typeStr
  if t = "message" ∨ t = "text" then .text
  else if t = "image" then .image
  else if t = "file" then .file
  else if t = "audio" then .audio
  else if t = "video" then .video
  else if t = "ping" then .ping
  else if t = "pong" then .pong
  else if t = "status" then .status
  else if t = "command" then .command
  else if t = "response" then .response
  else if t = "error" then .error
  else .unknown

/-- MessageAdapter.messageTypeToString: the TEXT enum value prints as
"message", never as "text". -/
def messageTypeToString : MessageType → String
  | .text => "message"
  | .image => "image"
  | .file => "file"
  | .audio => "audio"
  | .video => "video"
  | .ping => "ping"
  | .pong => "pong"
  | .status => "status"
  | .command => "command"
  | .response => "response"
  | .error => "error"
  | .unknown => "unknown"

/-- MessageAdapter.stringToMessageStatus: only four statuses are known;
everything else (including "unsent") becomes UNKNOWN. -/
def stringToMessageStatus (statusStr : String) : MessageStatus :=
  let s := goToLower statusStr
  if s = "sent" then .sent
  else if s = "delivered" then .delivered
  else if s = "read" then .read
  else if s = "failed" then .failed
  else .unknown

/-- MessageAdapter.messageStatusToString. -/
def messageStatusToString : MessageStatus → String
  | .sent => "sent"
  | .delivered => "delivered"
  | .read => "read"
  | .failed => "failed"
  | .unknown => "unknown"

/-- MessageAdapter.JSONToProtobuf (adapter.go).  The Details branch models
the string case of the Go type switch, the only one the code exercises. -/
def JSONToProtobuf (m : Message) : PbMessage :=
  { version := m.version
    type := stringToMessageType m.type
    statusCode := toInt32 m.statusCode
    errorCode := m.errorCode
    requestId := m.requestID
    id := m.id
    senderId := m.senderID
    recipientId := m.recipientID
    content := m.content
    timestamp := m.timestamp
    conversationId := m.conversationID
    isGroup := m.isGroup
    groupId := m.groupID
    status := stringToMessageStatus m.status
    handledByLocal := m.handledByLocal
    error :=
      if m.errMessage ≠ "" ∨ m.errDetails ≠ none then
        some { message := m.errMessage, details := m.errDetails.getD "" }
      else none
    metadata := m.metadata }

/-- MessageAdapter.ProtobufToJSON (adapter.go).  The Go function also sets
CreatedAt and UpdatedAt from the timestamp; those derived fields are not
modelled (json tag "-"). -/
def ProtobufToJSON (p : PbMessage) : Message :=
  { version := p.version
    type := messageTypeToString p.type
    statusCode := p.statusCode
    errorCode := p.errorCode
    requestID := p.requestId
    id := p.id
    senderID := p.senderId
    recipientID := p.recipientId
    content := p.content
    timestamp := p.timestamp
    conversationID := p.conversationId
    isGroup := p.isGroup
    groupID := p.groupId
    status := messageStatusToString p.status
    handledByLocal := p.handledByLocal
    errMessage := match p.error with | some e => e.message | none => ""
    errDetails :=
      match p.error with
      | some e => if e.details ≠ "" then some e.details else none
      | none => none
    metadata := p.metadata }

/-- JSON values, the parse tree of the bytes produced by Go
`encoding/json`; the byte-level printer and parser are mutually inverse on
such trees, so the tree stands for the serialized bytes. -/
inductive JVal where
  | str (s : String)
  | int (n : Int)
  | bool (b : Bool)
  | null
  | obj (fields : List (String × JVal))

/-- First-match association lookup inside a JSON object, the way
`encoding/json` resolves a struct field key. -/
def jget (l : List (String × JVal)) (k : String) : Option JVal :=
  match l with
  | [] => none
  | (k2, v) :: rest => if k = k2 then some v else jget rest k

/-- Go json.Unmarshal of a field into a string: missing keys leave the
zero value. -/
def jStr (l : List (String × JVal)) (k : String) : String :=
  match jget l k with
  | some (.str s) => s
  | _ => ""

/-- Go json.Unmarshal of a field into an integer. -/
def jInt (l : List (String × JVal)) (k : String) : Int :=
  match jget l k with
  | some (.int n) => n
  | _ => 0

/-- Go json.Unmarshal of a field into a bool. -/
def jBool (l : List (String × JVal)) (k : String) : Bool :=
  match jget l k with
  | some (.bool b) => b
  | _ => false

/-- Go json.Marshal of `protocol.Message`: fields in struct order, with
the omitempty tags of is_group, group_id, status and metadata; CreatedAt
and UpdatedAt carry tag "-" and are skipped; the error sub-struct has an
ineffective omitempty (structs are never omitted) and is always
emitted. -/
def encodeJsonMessage (m : Message) : List (String × JVal) :=
  [("version", .str m.version), ("type", .str m.type),
   ("status_code", .int m.statusCode), ("error_code", .str m.errorCode),
   ("request_id", .str m.requestID), ("id", .str m.id),
   ("sender_id", .str m.senderID), ("recipient_id", .str m.recipientID),
   ("content", .str m.content), ("timestamp", .int m.timestamp),
   ("conversation_id", .str m.conversationID)]
  ++ (if m.isGroup then [("is_group", JVal.bool m.isGroup)] else [])
  ++ (if m.groupID ≠ "" then [("group_id", JVal.str m.groupID)] else [])
  ++ (if m.status ≠ "" then [("status", JVal.str m.status)] else [])
  ++ [("handledByLocal", .bool m.handledByLocal),
      ("error", .obj [("message", .str m.errMessage),
                      ("details", match m.errDetails with
                                  | some s => .str s
                                  | none => .null)])]
  ++ (if m.metadata ≠ [] then
        [("metadata", JVal.obj (m.metadata.map fun p => (p.1, .str p.2)))]
      else [])

/-- Go json.Unmarshal of a byte string into `protocol.Message`: each
struct field is looked up by its json key, absent keys keep the zero
value.  Unmarshal only fails on malformed bytes, which a marshaller never
produces, so the decode of an encoded object is total. -/
def decodeJsonMessage (l : List (String × JVal)) : Message :=
  { version := jStr l "version"
    type := jStr l "type"
    statusCode := jInt l "status_code"
    errorCode := jStr l "error_code"
    requestID := jStr l "request_id"
    id := jStr l "id"
    senderID := jStr l "sender_id"
    recipientID := jStr l "recipient_id"
    content := jStr l "content"
    timestamp := jInt l "timestamp"
    conversationID := jStr l "conversation_id"
    isGroup := jBool l "is_group"
    groupID := jStr l "group_id"
    status := jStr l "status"
    handledByLocal := jBool l "handledByLocal"
    errMessage :=
      match jget l "error" with
      | some (.obj e) => jStr e "message"
      | _ => ""
    errDetails :=
      match jget l "error" with
      | some (.obj e) =>
          match jget e "details" with
          | some (.str s) => some s
          | _ => none
      | _ => none
    metadata :=
      match jget l "metadata" with
      | some (.obj e) =>
          e.map fun p => (p.1, match p.2 with | .str s => s | _ => "")
      | _ => [] }

/-- Protocol selector of MessageAdapter.SerializeMessage and
DeserializeMessage. -/
inductive ProtocolType where
  | json
  | protobuf
  deriving Repr, DecidableEq

/-- Serialized form of a message: the JSON parse tree for the JSON
protocol, the Protobuf struct (standing for its proto.Marshal bytes) for
the Protobuf protocol. -/
inductive Wire where
  | json (v : List (String × JVal))
  | protobuf (p : PbMessage)

/-- MessageAdapter.SerializeMessage (adapter.go). -/
def SerializeMessage (m : Message) : ProtocolType → Wire
  | .json => .json (encodeJsonMessage m)
  | .protobuf => .protobuf (JSONToProtobuf m)

/-- MessageAdapter.DeserializeMessage (adapter.go); `none` models the
error return when the bytes do not parse under the requested protocol. -/
def DeserializeMessage (w : Wire) : ProtocolType → Option Message
  | .json => match w with | .json v => some (decodeJsonMessage v) | _ => none
  | .protobuf => match w with | .protobuf p => some (ProtobufToJSON p) | _ => none

/-- Row of the `private_messages` table as written by
MessageService.savePrivateMessage (internal/chat/message_service.go); the
SentAt and Read columns are filled from the clock and a constant and play
no role in the claims. -/
structure PrivateMessage where
  id : String
  senderID : String
  receiverID : String
  type : String
  content : String
  deriving Repr, DecidableEq

/-- Row of the `group_messages` table as written by
MessageService.saveGroupMessage. -/
structure GroupMessage where
  id : String
  groupID : String
  senderID : String
  type : String
  content : String
  deriving Repr, DecidableEq

/-- Row of the generic `messages` table (internal/model, `model.Message`),
as written by the message service and by the offline store. -/
structure DbMessage where
  id : String
  conversationID : String
  senderID : String
  recipientID : String
  content : String
  contentType : String
  status : String
  timestamp : Int
  isGroup : Bool := false
  type : String := ""
  deriving Repr, DecidableEq

/-- The three tables touched by the history store. -/
structure ChatDB where
  privateMessages : List PrivateMessage := []
  groupMessages : List GroupMessage := []
  messages : List DbMessage := []
  deriving Repr, DecidableEq

namespace MessageService

/-- MessageService.savePrivateMessage: rejects an empty recipient unless
the type is "status", defaults the status to "sent", then inserts one row
into private_messages and one into the generic messages table.  Database
errors are out of scope (the store is external). -/
def savePrivateMessage (db : ChatDB) (m : Message) : ChatDB × Except String Unit :=
  if m.recipientID = "" ∧ m.type ≠ "status" then
    (db, .error "单聊消息接收者ID不能为空")
  else
    let status := if m.status = "" then "sent" else m.status
    let pm : PrivateMessage :=
      { id := m.id, senderID := m.senderID, receiverID := m.recipientID,
        type := m.type, content := m.content }
    let dm : DbMessage :=
      { id := m.id, conversationID := m.conversationID,
        senderID := m.senderID, recipientID := m.recipientID,
        content := m.content, contentType := m.type, status := status,
        timestamp := m.timestamp, isGroup := false, type := m.type }
    ({ db with privateMessages := db.privateMessages ++ [pm],
               messages := db.messages ++ [dm] }, .ok ())

/-- MessageService.saveGroupMessage: one row into group_messages (the
group id is taken from RecipientID) and one into the generic table with
status "sent". -/
def saveGroupMessage (db : ChatDB) (m : Message) : ChatDB × Except String Unit :=
  let gm : GroupMessage :=
    { id := m.id, groupID := m.recipientID, senderID := m.senderID,
      type := m.type, content := m.content }
  let dm : DbMessage :=
    { id := m.id, conversationID := m.conversationID,
      senderID := m.senderID, recipientID := m.recipientID,
      content := m.content, contentType := m.type, status := "sent",
      timestamp := m.timestamp, isGroup := true, type := m.type }
  ({ db with groupMessages := db.groupMessages ++ [gm],
             messages := db.messages ++ [dm] }, .ok ())

/-- MessageService.SaveMessage: heartbeat messages (type "ping" or "pong")
are not saved; every other message gets a fresh uuid when its id is empty
(`freshID` stands for uuid.New().String()) and is stored as a group or
private message. -/
def SaveMessage (freshID : String) (db : ChatDB) (m : Message) :
    ChatDB × Except String Unit :=
  if m.type = "ping" ∨ m.type = "pong" then (db, .ok ())
  else
    let m := if m.id = "" then { m with id := freshID } else m
    if m.isGroup then saveGroupMessage db m else savePrivateMessage db m

end MessageService

/-- Nanoseconds per second: Go `time.Duration` counts nanoseconds. -/
def nsPerSecond : Int := 1000000000

/-- Constant WriteWait of internal/connection (websocket.go). -/
def WriteWait : Int := 10 * nsPerSecond

/-- Constant PongWait of internal/connection: 60 seconds. -/
def PongWait : Int := 60 * nsPerSecond

/-- Constant PingPeriod of internal/connection: (PongWait * 9) / 10. -/
def PingPeriod : Int := PongWait * 9 / 10

/-- Constant MaxMessageSize of internal/connection: 10000 bytes. -/
def MaxMessageSize : Nat := 10000

/-- Connection type strings of internal/connection. -/
def ConnectionTypeWebSocket : String := "websocket"

/-- Connection type string of the plain TCP transport. -/
def ConnectionTypeTCP : String := "tcp"

/-- Connection type string of the binary (TCP-style) WebSocket
transport. -/
def ConnectionTypeTCPWS : String := "tcp_ws"

/-- Channel state of one connection object: the `done` channel, the
buffered `send` channel (capacity 256 in every constructor) and the
number of messages currently buffered. -/
structure ConnChans where
  doneClosed : Bool := false
  sendClosed : Bool := false
  buffered : Nat := 0
  sendCap : Nat := 256
  deriving Repr, DecidableEq

/-- Result of a SendMessage call on a connection, including the Go
runtime panic raised by a send on a closed channel. -/
inductive SendMsgResult where
  | ok
  | errClosed
  | errBufferFull
  | panicked
  deriving Repr, DecidableEq

/-- Close() shared by WebSocketConnection, TCPConnection and the enhanced
connections: close(done) unless already closed, then close(send).  A
second call observes the closed done channel and returns before touching
send, so Close is idempotent. -/
def connClose (c : ConnChans) : ConnChans :=
  { c with doneClosed := true, sendClosed := true }

/-- TCPConnection.SendMessage (the plain TCP session, internal/connection
tcp.go): a bare select with one send case and a default, with no check of
the done channel.  In Go a send on a closed channel is always ready and
panics when chosen, so after Close the select panics instead of falling
to the default branch. -/
def TCPConnection.SendMessage (c : ConnChans) : SendMsgResult :=
  if c.sendClosed then .panicked
  else if c.buffered < c.sendCap then .ok
  else .errBufferFull

/-- WebSocketConnection.SendMessage (websocket.go; EnhancedTCPConnection
and EnhancedWebSocketConnection have the same shape): a first select
returns the closed error when done is closed; only then is the buffered
send tried with a default. -/
def WebSocketConnection.SendMessage (c : ConnChans) : SendMsgResult :=
  if c.doneClosed then .errClosed
  else if c.sendClosed then .panicked
  else if c.buffered < c.sendCap then .ok
  else .errBufferFull

/-- What one iteration of a read loop does next. -/
inductive ReadLoopStep where
  | continueLoop
  | exitLoop
  | handleFrame
  deriving Repr, DecidableEq

/-- EnhancedTCPConnection.StartReading (enhanced_tcp.go), reaction to the
declared payload length of a frame: a length above MaxMessageSize is
logged and skipped with continue (the payload bytes are left unread in
the stream); otherwise the payload is read and handled. -/
def tcpFrameLengthStep (msgLen : Nat) : ReadLoopStep :=
  if msgLen > MaxMessageSize then .continueLoop else .handleFrame

/-- EnhancedTCPConnection.StartReading, reaction to a read timeout (the
deadline is PongWait): a net.Error timeout merely continues the loop, so
a silent peer never terminates the TCP session. -/
def tcpReadTimeoutStep : ReadLoopStep := .continueLoop

/-- Read deadline set by the enhanced TCP read loop. -/
def tcpReadDeadline : Int := PongWait

/-- WebSocket read limit: SetReadLimit(MaxMessageSize * 2)
(websocket.go, enhanced variant identical). -/
def wsReadLimit : Nat := MaxMessageSize * 2

/-- WebSocketConnection.StartReading on one inbound frame length:
gorilla/websocket fails the read when a frame exceeds the read limit, the
error breaks the loop and the deferred Close terminates the session. -/
def wsFrameLengthStep (frameLen : Nat) : ReadLoopStep :=
  if frameLen > wsReadLimit then .exitLoop else .handleFrame

/-- WebSocketConnection.StartReading when the read deadline expires with
no frame: ReadJSON returns an error, the loop breaks and the deferred
Close terminates the session. -/
def wsReadTimeoutStep : ReadLoopStep := .exitLoop

/-- Read deadline set by the WebSocket read loops: PongWait * 2. -/
def wsReadDeadline : Int := PongWait * 2

/-- What the session layer does with one decoded inbound message. -/
inductive InboundAction where
  | reply (r : Message)
  | dropFrame
  | forward (m : Message)
  deriving Repr, DecidableEq

/-- WebSocketConnection.StartReading (websocket.go), the per-message logic
after a successful ReadJSON: stamp the sender, default the timestamp to
`now`, synthesize a conversation id (`freshConv`, a uuid) for "message"
frames with a recipient, answer "ping" with a pong built with uuid
`freshPong`, drop any other frame whose recipient is empty unless its type
is "status" (an error reply with uuid `freshErr` is sent only when the
type is exactly "message"), and hand everything else to the handler. -/
def wsInboundStep (user : String) (now : Int)
    (freshConv freshPong freshErr : String) (m0 : Message) : InboundAction :=
  let m1 := { m0 with senderID := user }
  let m2 := if m1.timestamp = 0 then { m1 with timestamp := now } else m1
  let m3 :=
    if m2.conversationID = "" ∧ m2.type = "message" ∧ m2.recipientID ≠ "" then
      { m2 with conversationID := freshConv }
    else m2
  if m3.type = "ping" then
    .reply { id := freshPong, type := "pong", senderID := "server",
             timestamp := now }
  else if m3.recipientID = "" ∧ m3.type ≠ "status" then
    if m3.type = "message" then
      .reply { id := freshErr, type := "error", senderID := "server",
               recipientID := user, content := "消息缺少接收者ID",
               timestamp := now }
    else .dropFrame
  else .forward m3

/-- Outcome of server.handleMessage (internal/server/connection_handler.go)
on one message coming out of a session read loop. -/
inductive HandleOutcome where
  | errorReply (r : Message)
  | pongReply (r : Message)
  | droppedPong
  | statusBroadcast (m : Message)
  | errNoConversation
  | savedAndRouted (db : ChatDB) (m : Message)
  | saveFailed (e : String)
  deriving Repr, DecidableEq

/-- server.handleMessage: stamps sender and timestamp; a non-control
message (type outside ping, pong, status) with empty recipient and
is_group false gets an error reply through the connection manager and is
not routed; ping is answered with pong; pong is dropped; status goes to
the presence broadcast; everything else is saved through
MessageService.SaveMessage (after synthesizing a conversation id
`freshConv` when missing, failing when that needs a recipient which is
also missing) and then handed to connManager.SendMessage. -/
def handleMessage (db : ChatDB) (user : String) (now : Int)
    (freshConv freshSave : String) (m0 : Message) : HandleOutcome :=
  let m1 := { m0 with senderID := user }
  let m2 := if m1.timestamp = 0 then { m1 with timestamp := now } else m1
  if m2.recipientID = "" ∧ ¬ m2.isGroup ∧ m2.type ≠ "ping" ∧
      m2.type ≠ "pong" ∧ m2.type ≠ "status" then
    .errorReply { type := "error", senderID := "server",
                  recipientID := user, content := "消息缺少接收者ID",
                  timestamp := now }
  else if m2.type = "ping" then
    .pongReply { type := "pong", senderID := "server", recipientID := user,
                 timestamp := now }
  else if m2.type = "pong" then .droppedPong
  else if m2.type = "status" then .statusBroadcast m2
  else
    let route := fun (m3 : Message) =>
      match MessageService.SaveMessage freshSave db m3 with
      | (db2, .ok _) => HandleOutcome.savedAndRouted db2 m3
      | (_, .error e) => HandleOutcome.saveFailed e
    if m2.conversationID = "" then
      if m2.recipientID ≠ "" then route { m2 with conversationID := freshConv }
      else .errNoConversation
    else route m2

/-- Environment answer of one registered connection to a SendMessage call
made by a manager delivery loop. -/
inductive ConnSendResult where
  | ok
  | bufferFull
  | closedConn
  deriving Repr, DecidableEq

/-- One entry of a manager local connection table: the key of the inner Go
map (a connection id of the form user_type_nanos built by
RegisterConnection) together with the connection type and what the
connection answers to SendMessage. -/
structure ConnEntry where
  connID : String
  connType : String
  sendResult : ConnSendResult := .ok
  deriving Repr, DecidableEq

/-- Local connection table `connections`: user id to the connections of
that user, inner and outer maps in iteration order. -/
abbrev ConnTable := List (String × List ConnEntry)

/-- Connections of one user (Go `m.connections[userID]`; a missing key
reads as the empty map). -/
def lookupConns (tbl : ConnTable) (user : String) : List ConnEntry :=
  match tbl with
  | [] => []
  | (k, cs) :: rest => if user = k then cs else lookupConns rest user

/-- Presence of a user key in the table. -/
def hasUser (tbl : ConnTable) (user : String) : Bool :=
  match tbl with
  | [] => false
  | (k, _) :: rest => if user = k then true else hasUser rest user

/-- Write back the connections of one user, dropping the user key when the
set became empty, as UnregisterConnection does. -/
def setConns (tbl : ConnTable) (user : String) (cs : List ConnEntry) :
    ConnTable :=
  if cs.isEmpty then tbl.filter (fun p => ¬ p.1 = user)
  else if hasUser tbl user then
    tbl.map (fun p => if p.1 = user then (p.1, cs) else p)
  else tbl ++ [(user, cs)]

/-- Capacity of messageQueueChan in both managers. -/
def messageQueueCap : Nat := 1000

/-- State of RedisConnectionManager (internal/connection/redis_manager.go)
as far as the claims see it: the local connection table, the bounded
message queue, the Redis PUBLISH log (channel and payload), the generic
messages table behind the offline store and the list of connections the
manager has closed.  The connectionsByType map, the Redis presence keys
and the status manager are not read by any claim and are omitted. -/
structure RmState where
  redisEnabled : Bool := false
  connections : ConnTable := []
  messageQueue : List Message := []
  published : List (String × Message) := []
  db : List DbMessage := []
  closed : List ConnEntry := []
  deriving Repr, DecidableEq

namespace RM

/-- RedisConnectionManager.UnregisterConnection, the local-table part
(identical in OptimizedConnectionManager): collect the connections of the
user whose GetConnectionType() equals the `connType` argument, delete
them, close them out of lock, and drop the user key when nothing is
left. -/
def UnregisterConnection (st : RmState) (user connType : String) : RmState :=
  let conns := lookupConns st.connections user
  let toClose := conns.filter (fun e => e.connType = connType)
  let keep := conns.filter (fun e => ¬ e.connType = connType)
  { st with connections := setConns st.connections user keep,
            closed := st.closed ++ toClose }

/-- RedisConnectionManager.RegisterConnection, the local-table part: a
connection id user_type_nanos is formed (`nanos` stands for
time.Now().UnixNano()) and the connection is added under the user.  The
Go function then spawns sendOfflineMessages for the user
asynchronously. -/
def RegisterConnection (st : RmState) (user connType nanos : String)
    (res : ConnSendResult) : RmState :=
  let e : ConnEntry :=
    { connID := user ++ "_" ++ connType ++ "_" ++ nanos,
      connType := connType, sendResult := res }
  { st with connections :=
      setConns st.connections user (lookupConns st.connections user ++ [e]) }

/-- RedisConnectionManager.SendMessage: enqueue on the bounded local
queue (error "消息队列已满" when full), then, when Redis is enabled, the
message has a recipient and is not yet marked handled-by-local, publish
it on channel message_to:recipient (publish failures are logged, not
returned). -/
def SendMessage (st : RmState) (m : Message) : RmState × Except String Unit :=
  if st.messageQueue.length < messageQueueCap then
    let st1 := { st with messageQueue := st.messageQueue ++ [m] }
    let st2 :=
      if st1.redisEnabled ∧ m.recipientID ≠ "" ∧ ¬ m.handledByLocal then
        { st1 with published :=
            st1.published ++ [("message_to:" ++ m.recipientID, m)] }
      else st1
    (st2, .ok ())
  else (st, .error "消息队列已满")

/-- RedisConnectionManager.storeOfflineMessage: force status "unsent",
give the message a fresh uuid when the id is empty, reject an empty
recipient, and insert one row into the generic messages table. -/
def storeOfflineMessage (st : RmState) (freshID : String) (m : Message) :
    RmState × Except String Unit :=
  let m1 := { m with status := "unsent" }
  let m2 := if m1.id = "" then { m1 with id := freshID } else m1
  if m2.recipientID = "" then (st, .error "接收者ID不能为空")
  else
    ({ st with db := st.db ++
        [{ id := m2.id, conversationID := m2.conversationID,
           senderID := m2.senderID, recipientID := m2.recipientID,
           content := m2.content, contentType := m2.type,
           status := m2.status, timestamp := m2.timestamp }] }, .ok ())

/-- One pass of the delivery loop in
RedisConnectionManager.processMessage over an already collected snapshot
of connections: try each in order; a successful send stops with that
connection id; the error equal to "连接已关闭" first calls
UnregisterConnection with the LOOP KEY — a connection id, where
UnregisterConnection expects a connection type — and then moves on; any
other error just moves on. -/
def trySend (st : RmState) (user : String) :
    List ConnEntry → RmState × Option String
  | [] => (st, none)
  | e :: rest =>
    match e.sendResult with
    | .ok => (st, some e.connID)
    | .closedConn => trySend (UnregisterConnection st user e.connID) user rest
    | .bufferFull => trySend st user rest

/-- Overall outcome of processMessage for one message. -/
inductive DeliverResult where
  | delivered (connID : String)
  | storedOffline
  | droppedNoRecipient
  deriving Repr, DecidableEq

/-- RedisConnectionManager.processMessage: mark the message
handled-by-local; drop it when the recipient is empty; otherwise snapshot
the recipient connections and run two passes over the snapshot — first
only the entries whose MAP KEY equals the literal "tcp" (the keys are
connection ids of the form user_type_nanos, so this intended TCP-priority
pass matches nothing), then the entries whose key differs from "tcp" —
and store the message offline when no send succeeded.  The two filtered
passes iterate exactly the entries the Go loops act on, in the same
order. -/
def processMessage (st0 : RmState) (freshID : String) (m0 : Message) :
    RmState × DeliverResult :=
  let m := { m0 with handledByLocal := true }
  if m.recipientID = "" then (st0, .droppedNoRecipient)
  else
    let conns := lookupConns st0.connections m.recipientID
    let pass1 := trySend st0 m.recipientID
      (conns.filter (fun e => e.connID = ConnectionTypeTCP))
    match pass1.2 with
    | some cid => (pass1.1, .delivered cid)
    | none =>
      let pass2 := trySend pass1.1 m.recipientID
        (conns.filter (fun e => ¬ e.connID = ConnectionTypeTCP))
      match pass2.2 with
      | some cid => (pass2.1, .delivered cid)
      | none => ((storeOfflineMessage pass2.1 freshID m).1, .storedOffline)

/-- RedisConnectionManager.GetOfflineMessages: the rows of the generic
messages table with recipient_id = user and status = "unsent", ordered by
timestamp ascending, converted back to protocol messages. -/
def GetOfflineMessages (db : List DbMessage) (user : String) : List Message :=
  (List.insertionSort (fun a b => a.timestamp ≤ b.timestamp)
      (db.filter (fun r => r.recipientID = user ∧ r.status = "unsent"))).map
    (fun r =>
      { id := r.id, conversationID := r.conversationID,
        senderID := r.senderID, recipientID := user, content := r.content,
        type := r.contentType, timestamp := r.timestamp,
        status := r.status })

/-- RedisConnectionManager.MarkOfflineMessagesAsSent: set status "sent" on
every row whose id is among the given messages. -/
def MarkOfflineMessagesAsSent (db : List DbMessage) (msgs : List Message) :
    List DbMessage :=
  if msgs = [] then db
  else
    let ids := msgs.map (fun m => m.id)
    db.map (fun r => if r.id ∈ ids then { r with status := "sent" } else r)

/-- RedisConnectionManager.sendOfflineMessages, spawned asynchronously by
RegisterConnection right after the connection is registered: fetch the
unsent messages of the user, feed each back through SendMessage (send
errors are logged and skipped), then mark all fetched messages as
sent. -/
def sendOfflineMessages (st : RmState) (user : String) : RmState :=
  let msgs := GetOfflineMessages st.db user
  if msgs = [] then st
  else
    let st1 := msgs.foldl (fun acc m => (SendMessage acc m).1) st
    { st1 with db := MarkOfflineMessagesAsSent st1.db msgs }

end RM

/-- server.handleAuthenticatedConnection (connection_handler.go) and
handleEnhancedAuthenticatedConnection (enhanced_connection_handler.go),
the registration prefix: a connection whose type is tcp_ws or tcp first
unregisters (and thereby closes) every standard-WebSocket connection of
the same user, then registers itself. -/
def handleAuthenticatedConnection (st : RmState) (user connType nanos : String)
    (res : ConnSendResult) : RmState :=
  let st1 :=
    if connType = ConnectionTypeTCPWS ∨ connType = ConnectionTypeTCP then
      RM.UnregisterConnection st user ConnectionTypeWebSocket
    else st
  RM.RegisterConnection st1 user connType nanos res

/-- State of OptimizedConnectionManager
(internal/connection/optimized_connection_manager.go) as the claims see
it: the route-table view (`localUsers` is UserConnectionRegistry.localUsers,
`registry` the Redis keys user_registry:user mapped to the owning server
id), the bounded message queue, the PUBLISH log, and the generic messages
table a working offline store would write.  `publishFails` is the
environment: whether redisClient.Publish returns an error. -/
structure OmState where
  redisEnabled : Bool := false
  localUsers : List String := []
  registry : List (String × String) := []
  publishFails : Bool := false
  messageQueue : List Message := []
  published : List (String × Message) := []
  db : List DbMessage := []
  deriving Repr, DecidableEq

namespace OptimizedConnectionManager

/-- OptimizedConnectionManager.storeOfflineMessage.  The body in the
source is a stub: its comment defers to the redis_manager implementation
but the function only returns nil — nothing is written anywhere. -/
def storeOfflineMessage (st : OmState) (m : Message) :
    OmState × Except String Unit :=
  (st, .ok ())

/-- OptimizedConnectionManager.sendToTargetServer: serialize and publish
on the per-node channel server_msg:target; on a publish error fall back
to storeOfflineMessage. -/
def sendToTargetServer (st : OmState) (m : Message)
    (targetServerID : String) : OmState × Except String Unit :=
  if st.publishFails then storeOfflineMessage st m
  else
    ({ st with published :=
        st.published ++ [("server_msg:" ++ targetServerID, m)] }, .ok ())

/-- OptimizedConnectionManager.SendMessage: a locally registered recipient
gets the message enqueued on the bounded local queue; otherwise, with
Redis disabled, or when the registry lookup (FindUserServer) finds no
entry, the message goes to storeOfflineMessage; with a registry entry it
is published to the owning server. -/
def SendMessage (st : OmState) (m : Message) : OmState × Except String Unit :=
  if st.localUsers.contains m.recipientID then
    if st.messageQueue.length < messageQueueCap then
      ({ st with messageQueue := st.messageQueue ++ [m] }, .ok ())
    else (st, .error "消息队列已满")
  else if ¬ st.redisEnabled then storeOfflineMessage st m
  else
    match st.registry.lookup m.recipientID with
    | none => storeOfflineMessage st m
    | some serverID => sendToTargetServer st m serverID

end OptimizedConnectionManager

theorem lookupConns_filter_ne (tbl : ConnTable) (u : String) :
    lookupConns (tbl.filter (fun p => ¬ p.1 = u)) u = [] := by
  induction tbl with
  | nil => rfl
  | cons hd tl ih =>
    obtain ⟨k, v⟩ := hd
    by_cases h : k = u
    · simpa [List.filter_cons, h] using ih
    · have h2 : ¬ u = k := fun hh => h hh.symm
      simpa [List.filter_cons, h, lookupConns, h2] using ih

theorem lookupConns_map_set (tbl : ConnTable) (u : String)
    (cs : List ConnEntry) (h : hasUser tbl u = true) :
    lookupConns (tbl.map (fun p => if p.1 = u then (p.1, cs) else p)) u = cs := by
  induction tbl with
  | nil => simp [hasUser] at h
  | cons hd tl ih =>
    obtain ⟨k, v⟩ := hd
    by_cases hk : k = u
    · subst hk
      simp only [List.map_cons]
      simp [lookupConns]
    · have h2 : ¬ u = k := fun hh => hk hh.symm
      have h3 : hasUser tl u = true := by
        simpa [hasUser, h2] using h
      simp only [List.map_cons]
      rw [show ((if (k, v).1 = u then ((k, v).1, cs) else (k, v))) = (k, v)
            from if_neg hk]
      simpa [lookupConns, h2] using ih h3

theorem lookupConns_append_one (tbl : ConnTable) (u : String)
    (cs : List ConnEntry) (h : hasUser tbl u = false) :
    lookupConns (tbl ++ [(u, cs)]) u = cs := by
  induction tbl with
  | nil => simp [lookupConns]
  | cons hd tl ih =>
    obtain ⟨k, v⟩ := hd
    by_cases hk : k = u
    · subst hk
      simp [hasUser] at h
    · have h2 : ¬ u = k := fun hh => hk hh.symm
      have h3 : hasUser tl u = false := by
        simpa [hasUser, h2] using h
      simpa [lookupConns, h2] using ih h3

theorem lookupConns_setConns_self (tbl : ConnTable) (u : String)
    (cs : List ConnEntry) : lookupConns (setConns tbl u cs) u = cs := by
  unfold setConns
  by_cases he : cs.isEmpty
  · simp only [he, if_true]
    rw [lookupConns_filter_ne, List.isEmpty_iff.mp he]
  · simp only [he, if_false]
    cases hs : hasUser tbl u
    · simp only [Bool.false_eq_true, if_false]
      exact lookupConns_append_one tbl u cs hs
    · simp only [if_true]
      exact lookupConns_map_set tbl u cs hs

/-- The eleven type strings that the adapter maps to a named enum value
AND that messageTypeToString prints back; "text" also maps to a named
value but prints back as "message" and is therefore absent. -/
def canonicalTypeStrings : List String :=
  ["message", "image", "file", "audio", "video", "ping", "pong",
   "status", "command", "response", "error"]

/-- The four status strings that survive the status enum mapping. -/
def canonicalStatusStrings : List String :=
  ["sent", "delivered", "read", "failed"]

theorem messageType_string_roundtrip (t : String)
    (h : t ∈ canonicalTypeStrings) :
    messageTypeToString (stringToMessageType t) = t := by
  simp only [canonicalTypeStrings, List.mem_cons, List.mem_singleton,
    List.not_mem_nil, or_false] at h
  rcases h with h | h | h | h | h | h | h | h | h | h | h <;> subst h <;> decide

theorem messageStatus_string_roundtrip (s : String)
    (h : s ∈ canonicalStatusStrings) :
    messageStatusToString (stringToMessageStatus s) = s := by
  simp only [canonicalStatusStrings, List.mem_cons, List.mem_singleton,
    List.not_mem_nil, or_false] at h
  rcases h with h | h | h | h <;> subst h <;> decide

theorem toInt32_id (n : Int) (h1 : -2147483648 ≤ n) (h2 : n < 2147483648) :
    toInt32 n = n := by
  unfold toInt32
  omega

theorem pb_field_roundtrip (m : Message)
    (ht : m.type ∈ canonicalTypeStrings)
    (hs : m.status ∈ canonicalStatusStrings)
    (hc1 : -2147483648 ≤ m.statusCode) (hc2 : m.statusCode < 2147483648)
    (hd : m.errDetails ≠ some "") :
    ProtobufToJSON (JSONToProtobuf m) = m := by
  have htt := messageType_string_roundtrip m.type ht
  have hss := messageStatus_string_roundtrip m.status hs
  have hcc := toInt32_id m.statusCode hc1 hc2
  by_cases hm : m.errMessage = "" <;>
  cases hde : m.errDetails <;>
  cases m <;>
  simp_all [ProtobufToJSON, JSONToProtobuf, Option.getD]

theorem metadata_json_roundtrip (l : List (String × String)) :
    List.map ((fun p => (p.1, match p.2 with | JVal.str s => s | _ => "")) ∘
        (fun p : String × String => (p.1, JVal.str p.2))) l = l := by
  induction l with
  | nil => rfl
  | cons hd tl ih => simp [ih]

set_option maxHeartbeats 1600000 in
theorem json_roundtrip (m : Message) :
    decodeJsonMessage (encodeJsonMessage m) = m := by
  by_cases hg : m.isGroup <;>
  by_cases hgid : m.groupID = "" <;>
  by_cases hst : m.status = "" <;>
  by_cases hmd : m.metadata = [] <;>
  cases hde : m.errDetails <;>
  cases m <;>
  simp_all [encodeJsonMessage, decodeJsonMessage, jget, jStr, jInt, jBool,
    metadata_json_roundtrip]

theorem trySend_snd (user : String) (l : List ConnEntry) :
    ∀ st : RmState, (RM.trySend st user l).2 =
      (l.find? (fun e => decide (e.sendResult = ConnSendResult.ok))).map
        (fun e => e.connID) := by
  induction l with
  | nil => intro st; rfl
  | cons e rest ih =>
    intro st
    cases h : e.sendResult <;>
      simp [RM.trySend, h, List.find?_cons, ih]

theorem foldl_SendMessage_queue (l : List Message) :
    ∀ st : RmState, st.messageQueue.length + l.length ≤ messageQueueCap →
      (l.foldl (fun acc m => (RM.SendMessage acc m).1) st).messageQueue =
          st.messageQueue ++ l ∧
        (l.foldl (fun acc m => (RM.SendMessage acc m).1) st).db = st.db := by
  induction l with
  | nil => intro st _; simp
  | cons m rest ih =>
    intro st h
    have hlt : st.messageQueue.length < messageQueueCap := by
      simp only [List.length_cons] at h
      omega
    have hstep :
        ((RM.SendMessage st m).1).messageQueue = st.messageQueue ++ [m] ∧
          ((RM.SendMessage st m).1).db = st.db := by
      unfold RM.SendMessage
      rw [if_pos hlt]
      dsimp only
      split_ifs <;> simp
    have hlen :
        ((RM.SendMessage st m).1).messageQueue.length + rest.length ≤
          messageQueueCap := by
      rw [hstep.1]
      simp at h ⊢
      omega
    have := ih ((RM.SendMessage st m).1) hlen
    refine ⟨?_, ?_⟩
    · rw [List.foldl_cons, this.1, hstep.1, List.append_assoc]
      rfl
    · rw [List.foldl_cons, this.2, hstep.2]

/-- Claim C1: the spec says SendMessage of the connection manager succeeds
exactly when the message was queued locally, published once on
server_msg:N, or persisted offline with status "unsent".  The code
violates this: OptimizedConnectionManager.storeOfflineMessage is a stub
whose body only returns nil although its comment defers to the
redis_manager implementation.  Evaluated at a message for recipient "u2"
who is neither local nor in the registry, SendMessage returns success and
the state is unchanged: nothing was queued, nothing was published and no
offline row was written. -/
theorem C1_offline_fallback_succeeds_without_any_outcome :
    OptimizedConnectionManager.SendMessage
        { redisEnabled := true, localUsers := ["u9"],
          registry := [("u9", "server-1")] }
        { type := "message", id := "m1", senderID := "u1",
          recipientID := "u2", content := "hi",
          timestamp := 1700000000 } =
      ({ redisEnabled := true, localUsers := ["u9"],
         registry := [("u9", "server-1")] }, Except.ok ()) := by
  rfl

/-- Claim C2 counterexample: the claim says the type string of every
message is preserved by the Protobuf string-to-enum-to-string mapping.
It is false at type "text": the adapter maps "text" to the TEXT enum
value but prints TEXT back as "message", so the Protobuf round trip of a
message of type "text" returns a different message. -/
theorem C2_counterexample_text_not_preserved :
    DeserializeMessage
        (SerializeMessage { type := "text", status := "sent" }
          ProtocolType.protobuf) ProtocolType.protobuf =
        some { type := "message", status := "sent" } ∧
      some ({ type := "message", status := "sent" } : Message) ≠
        some ({ type := "text", status := "sent" } : Message) := by
  constructor
  · rfl
  · decide

/-- Claim C2 amended: deserializing the serialization of a message m is
the identity under JSON for every m; under Protobuf it is the identity
(up to the derived CreatedAt/UpdatedAt fields, which are not part of the
wire image) provided the type string is one of the eleven canonical enum
names — with "message", not "text", as the text name — the status string
is one of sent, delivered, read, failed, the status code fits in int32,
and the error details are not the empty string.  In particular type
"text" (returned as "message") and status "unsent" (returned as
"unknown") are not preserved. -/
theorem C2_roundtrip_amended (m : Message)
    (ht : m.type ∈ canonicalTypeStrings)
    (hs : m.status ∈ canonicalStatusStrings)
    (hc1 : -2147483648 ≤ m.statusCode) (hc2 : m.statusCode < 2147483648)
    (hd : m.errDetails ≠ some "") :
    DeserializeMessage (SerializeMessage m ProtocolType.json)
        ProtocolType.json = some m ∧
      DeserializeMessage (SerializeMessage m ProtocolType.protobuf)
        ProtocolType.protobuf = some m := by
  constructor
  · show some (decodeJsonMessage (encodeJsonMessage m)) = some m
    rw [json_roundtrip]
  · show some (ProtobufToJSON (JSONToProtobuf m)) = some m
    rw [pb_field_roundtrip m ht hs hc1 hc2 hd]

/-- Witness for C2_roundtrip_amended at a concrete message exercising
every hypothesis. -/
theorem C2_roundtrip_amended_witness :
    DeserializeMessage
        (SerializeMessage
          { version := "1.0", type := "message", statusCode := 200,
            errorCode := "E1", requestID := "r1", id := "m1",
            senderID := "u1", recipientID := "u2", content := "hi",
            timestamp := 1700000000, conversationID := "c1",
            isGroup := false, groupID := "", status := "sent",
            handledByLocal := false, errMessage := "boom",
            errDetails := some "detail", metadata := [("k", "v")] }
          ProtocolType.json) ProtocolType.json =
      some
        { version := "1.0", type := "message", statusCode := 200,
          errorCode := "E1", requestID := "r1", id := "m1",
          senderID := "u1", recipientID := "u2", content := "hi",
          timestamp := 1700000000, conversationID := "c1",
          isGroup := false, groupID := "", status := "sent",
          handledByLocal := false, errMessage := "boom",
          errDetails := some "detail", metadata := [("k", "v")] } ∧
    DeserializeMessage
        (SerializeMessage
          { version := "1.0", type := "message", statusCode := 200,
            errorCode := "E1", requestID := "r1", id := "m1",
            senderID := "u1", recipientID := "u2", content := "hi",
            timestamp := 1700000000, conversationID := "c1",
            isGroup := false, groupID := "", status := "sent",
            handledByLocal := false, errMessage := "boom",
            errDetails := some "detail", metadata := [("k", "v")] }
          ProtocolType.protobuf) ProtocolType.protobuf =
      some
        { version := "1.0", type := "message", statusCode := 200,
          errorCode := "E1", requestID := "r1", id := "m1",
          senderID := "u1", recipientID := "u2", content := "hi",
          timestamp := 1700000000, conversationID := "c1",
          isGroup := false, groupID := "", status := "sent",
          handledByLocal := false, errMessage := "boom",
          errDetails := some "detail", metadata := [("k", "v")] } :=
  C2_roundtrip_amended _ (by decide) (by decide) (by decide) (by decide)
    (by decide)

/-- Claim C3 counterexample: the claim says messages of type "ping",
"pong" or "status" are never persisted by the history store.  It is false
for "status": MessageService.SaveMessage only skips "ping" and "pong", so
a status message is written both to private_messages and to the generic
messages table, one row each. -/
theorem C3_counterexample_status_message_persisted :
    (MessageService.SaveMessage "uuid-1" {}
        { type := "status", id := "m7", senderID := "u1",
          recipientID := "u2", content := "online",
          timestamp := 1700000000 }).1.privateMessages.length = 1 ∧
      (MessageService.SaveMessage "uuid-1" {}
        { type := "status", id := "m7", senderID := "u1",
          recipientID := "u2", content := "online",
          timestamp := 1700000000 }).1.messages.length = 1 := by
  constructor <;> rfl

/-- Claim C3 amended: messages of type "ping" or "pong" are never
persisted — SaveMessage returns success without touching any table;
status messages, by contrast, are persisted (see the counterexample). -/
theorem C3_heartbeats_never_persisted (freshID : String) (db : ChatDB)
    (m : Message) (h : m.type = "ping" ∨ m.type = "pong") :
    MessageService.SaveMessage freshID db m = (db, Except.ok ()) := by
  unfold MessageService.SaveMessage
  rcases h with h | h <;> simp [h]

/-- Witness for C3_heartbeats_never_persisted at a concrete ping. -/
theorem C3_heartbeats_never_persisted_witness :
    MessageService.SaveMessage "uuid-1" {}
        { type := "ping", senderID := "u1" } = ({}, Except.ok ()) :=
  C3_heartbeats_never_persisted "uuid-1" {} { type := "ping", senderID := "u1" }
    (Or.inl rfl)

/-- Claim C4 counterexample: the claim says the router picks local
sessions in the priority order tcp-bin over ws-bin over ws-json.  In
RedisConnectionManager.processMessage the intended TCP-priority pass
compares the connection-map KEY — a connection id of the form
user_type_nanos — with the literal type string "tcp", which never
matches, so delivery simply follows table iteration order.  With a
healthy ws-json connection listed before a healthy tcp connection, the
message is delivered to the ws-json session. -/
theorem C4_counterexample_json_ws_chosen_over_tcp :
    (RM.processMessage
        { connections := [("u2",
            [{ connID := "u2_websocket_100", connType := "websocket",
               sendResult := ConnSendResult.ok },
             { connID := "u2_tcp_200", connType := "tcp",
               sendResult := ConnSendResult.ok }])] }
        "uuid-9"
        { type := "message", id := "m1", senderID := "u1",
          recipientID := "u2", content := "hi" }).2 =
      RM.DeliverResult.delivered "u2_websocket_100" := by
  rfl

/-- Claim C4 amended: for a message with a recipient whose connection
keys are never the literal "tcp" (always true for keys of the shape
user_type_nanos built by RegisterConnection), processMessage delivers to
the FIRST connection in table order whose send succeeds — any send error
moves on to the next — and stores the message offline when no send
succeeds; the intended tcp-first priority pass matches nothing, and the
unregister issued on a closed-connection error passes the connection id
where UnregisterConnection expects a connection type, so it removes
nothing and closes nothing. -/
theorem C4_delivery_follows_table_order (st : RmState)
    (freshID : String) (m : Message) (hr : m.recipientID ≠ "")
    (hk : ∀ e ∈ lookupConns st.connections m.recipientID,
        e.connID ≠ ConnectionTypeTCP) :
    (RM.processMessage st freshID m).2 =
      (match (lookupConns st.connections m.recipientID).find?
          (fun e => decide (e.sendResult = ConnSendResult.ok)) with
       | some e => RM.DeliverResult.delivered e.connID
       | none => RM.DeliverResult.storedOffline) ∧
    (∀ cid, (∀ e ∈ lookupConns st.connections m.recipientID,
          e.connType ≠ cid) →
        lookupConns (RM.UnregisterConnection st m.recipientID cid).connections
            m.recipientID =
          lookupConns st.connections m.recipientID ∧
        (RM.UnregisterConnection st m.recipientID cid).closed = st.closed) := by
  constructor
  · unfold RM.processMessage
    have hr2 : ¬ ({ m with handledByLocal := true }).recipientID = "" := by
      simpa using hr
    rw [if_neg hr2]
    have hrec : ({ m with handledByLocal := true }).recipientID =
        m.recipientID := rfl
    rw [hrec]
    dsimp only
    have hf1 : (lookupConns st.connections m.recipientID).filter
        (fun e => decide (e.connID = ConnectionTypeTCP)) = [] := by
      rw [List.filter_eq_nil_iff]
      intro e he
      simpa using hk e he
    have hf2 : (lookupConns st.connections m.recipientID).filter
        (fun e => decide (¬ e.connID = ConnectionTypeTCP)) =
        lookupConns st.connections m.recipientID := by
      rw [List.filter_eq_self]
      intro e he
      simpa using hk e he
    rw [hf1, hf2]
    dsimp only [RM.trySend]
    rw [trySend_snd]
    cases hfind : (lookupConns st.connections m.recipientID).find?
        (fun e => decide (e.sendResult = ConnSendResult.ok)) <;>
      simp [hfind]
  · intro cid hcid
    unfold RM.UnregisterConnection
    dsimp only
    have ht1 : (lookupConns st.connections m.recipientID).filter
        (fun e => decide (e.connType = cid)) = [] := by
      rw [List.filter_eq_nil_iff]
      intro e he
      simpa using hcid e he
    have ht2 : (lookupConns st.connections m.recipientID).filter
        (fun e => decide (¬ e.connType = cid)) =
        lookupConns st.connections m.recipientID := by
      rw [List.filter_eq_self]
      intro e he
      simpa using hcid e he
    rw [ht1, ht2]
    exact ⟨lookupConns_setConns_self _ _ _, by simp⟩

/-- Witness for C4_delivery_follows_table_order on a concrete table where
the first connection reports buffer-full and the second succeeds. -/
theorem C4_delivery_follows_table_order_witness :
    (RM.processMessage
        { connections := [("u2",
            [{ connID := "u2_tcp_ws_300", connType := "tcp_ws",
               sendResult := ConnSendResult.bufferFull },
             { connID := "u2_websocket_400", connType := "websocket",
               sendResult := ConnSendResult.ok }])] }
        "uuid-8"
        { type := "message", id := "m2", senderID := "u1",
          recipientID := "u2", content := "yo" }).2 =
      (match (lookupConns
          ({ connections := [("u2",
              [{ connID := "u2_tcp_ws_300", connType := "tcp_ws",
                 sendResult := ConnSendResult.bufferFull },
               { connID := "u2_websocket_400", connType := "websocket",
                 sendResult := ConnSendResult.ok }])] } : RmState).connections
          "u2").find?
          (fun e => decide (e.sendResult = ConnSendResult.ok)) with
       | some e => RM.DeliverResult.delivered e.connID
       | none => RM.DeliverResult.storedOffline) :=
  (C4_delivery_follows_table_order _ "uuid-8"
      { type := "message", id := "m2", senderID := "u1",
        recipientID := "u2", content := "yo" }
      (by decide) (by decide)).1

/-- Claim C5: when a session registers with a binary transport (type
"tcp" or "tcp_ws"), handleAuthenticatedConnection first unregisters every
standard-WebSocket ("websocket") connection of the user — each such
pre-existing connection ends up closed — and only then registers the new
session, so afterwards the user holds no registered ws-json session from
before the binary registration. -/
theorem C5_binary_session_evicts_json_ws (st : RmState)
    (user bt nanos : String) (res : ConnSendResult)
    (h : bt = ConnectionTypeTCP ∨ bt = ConnectionTypeTCPWS) :
    (∀ e ∈ lookupConns
        (handleAuthenticatedConnection st user bt nanos res).connections user,
        e.connType ≠ ConnectionTypeWebSocket) ∧
      (∀ e ∈ lookupConns st.connections user,
        e.connType = ConnectionTypeWebSocket →
          e ∈ (handleAuthenticatedConnection st user bt nanos res).closed) := by
  have hcond : bt = ConnectionTypeTCPWS ∨ bt = ConnectionTypeTCP := h.symm
  have hbt : bt ≠ ConnectionTypeWebSocket := by
    rcases h with h | h <;> subst h <;> decide
  unfold handleAuthenticatedConnection RM.RegisterConnection
    RM.UnregisterConnection
  rw [if_pos hcond]
  dsimp only
  constructor
  · intro e he
    rw [lookupConns_setConns_self] at he
    rcases List.mem_append.mp he with he | he
    · rw [lookupConns_setConns_self] at he
      have := List.of_mem_filter he
      simpa using this
    · have he2 := List.mem_singleton.mp he
      subst he2
      simpa using hbt
  · intro e he hw
    exact List.mem_append.mpr (Or.inr (List.mem_filter.mpr ⟨he, by simp [hw]⟩))

/-- Witness for C5_binary_session_evicts_json_ws: a user with one ws-json
session opens a tcp session. -/
theorem C5_binary_session_evicts_json_ws_witness :
    (∀ e ∈ lookupConns
        (handleAuthenticatedConnection
          { connections := [("u1",
              [{ connID := "u1_websocket_1", connType := "websocket",
                 sendResult := ConnSendResult.ok }])] }
          "u1" "tcp" "2" ConnSendResult.ok).connections "u1",
        e.connType ≠ ConnectionTypeWebSocket) ∧
      (∀ e ∈ lookupConns
          ({ connections := [("u1",
              [{ connID := "u1_websocket_1", connType := "websocket",
                 sendResult := ConnSendResult.ok }])] } : RmState).connections
          "u1",
        e.connType = ConnectionTypeWebSocket →
          e ∈ (handleAuthenticatedConnection
            { connections := [("u1",
                [{ connID := "u1_websocket_1", connType := "websocket",
                   sendResult := ConnSendResult.ok }])] }
            "u1" "tcp" "2" ConnSendResult.ok).closed) :=
  C5_binary_session_evicts_json_ws _ "u1" "tcp" "2" ConnSendResult.ok
    (Or.inl rfl)

/-- Claim C6 counterexample: the claim says a TCP frame whose declared
length exceeds 64 KiB is rejected AND the TCP session is closed.  In the
code the limit is MaxMessageSize = 10000 bytes and an oversize frame is
skipped with continue — the read loop keeps running, the session is not
closed. -/
theorem C6_counterexample_oversize_tcp_frame_not_fatal :
    tcpFrameLengthStep 65537 = ReadLoopStep.continueLoop ∧
      ReadLoopStep.continueLoop ≠ ReadLoopStep.exitLoop := by
  decide

/-- Claim C6 amended: the frame limit is MaxMessageSize = 10000 bytes,
not 64 KiB; a TCP frame declaring more than 10000 bytes is skipped with
continue and the session survives (the unread payload desynchronizes the
stream), while frames up to the limit are handled; on WebSocket the read
limit is 2 * MaxMessageSize = 20000 bytes and an oversize frame aborts
the read loop, closing the session — the opposite of the claimed
session-survival split. -/
theorem C6_frame_limits :
    MaxMessageSize = 10000 ∧ wsReadLimit = 20000 ∧
      (∀ len : Nat, MaxMessageSize < len →
        tcpFrameLengthStep len = ReadLoopStep.continueLoop) ∧
      (∀ len : Nat, len ≤ MaxMessageSize →
        tcpFrameLengthStep len = ReadLoopStep.handleFrame) ∧
      (∀ len : Nat, wsReadLimit < len →
        wsFrameLengthStep len = ReadLoopStep.exitLoop) := by
  refine ⟨rfl, rfl, ?_, ?_, ?_⟩ <;> intro len h <;>
    simp only [MaxMessageSize, wsReadLimit] at h <;>
    simp [tcpFrameLengthStep, wsFrameLengthStep, MaxMessageSize, wsReadLimit] <;>
    omega

/-- Witness for C6_frame_limits at the boundary values 10001 and
20001. -/
theorem C6_frame_limits_witness :
    tcpFrameLengthStep 10001 = ReadLoopStep.continueLoop ∧
      wsFrameLengthStep 20001 = ReadLoopStep.exitLoop :=
  ⟨C6_frame_limits.2.2.1 10001 (by decide),
   C6_frame_limits.2.2.2.2 20001 (by decide)⟩

/-- Claim C7 counterexample: the claim says every non-control message
with empty recipient and is_group false gets an error reply, and that a
group message with empty recipient is not rejected.  On the WebSocket
read loop both parts fail: an "image" message with empty recipient is
dropped silently (the error reply is only built for type "message"), and
a group "message" with empty recipient and a group id is rejected with an
error reply instead of being accepted. -/
theorem C7_counterexample_ws_read_loop :
    wsInboundStep "u1" 1700000000 "conv-1" "pong-1" "err-1"
        { type := "image", content := "pic" } = InboundAction.dropFrame ∧
      wsInboundStep "u1" 1700000000 "conv-1" "pong-1" "err-1"
          { type := "message", isGroup := true, groupID := "g1",
            content := "hello" } =
        InboundAction.reply
          { id := "err-1", type := "error", senderID := "server",
            recipientID := "u1", content := "消息缺少接收者ID",
            timestamp := 1700000000 } := by
  constructor <;> rfl

/-- Claim C7 amended: the connection-handler layer behaves as claimed —
handleMessage answers a non-control (type outside ping, pong, status)
message with empty recipient and is_group false with an error reply to
the sender and does not route it — but the WebSocket read loop intercepts
empty-recipient messages first: any inbound message with empty recipient
and type other than "status" (and "ping", which is answered with a pong)
is dropped before the handler, group or not, and the error reply is sent
only when the type is exactly "message"; other types are dropped
silently. -/
theorem C7_missing_recipient_amended (db : ChatDB) (user : String)
    (now : Int) (fc fs f1 f2 f3 : String) (m : Message)
    (hr : m.recipientID = "") (hg : m.isGroup = false)
    (h1 : m.type ≠ "ping") (h2 : m.type ≠ "pong") (h3 : m.type ≠ "status") :
    handleMessage db user now fc fs m =
      HandleOutcome.errorReply
        { type := "error", senderID := "server", recipientID := user,
          content := "消息缺少接收者ID", timestamp := now } ∧
      (m.type = "message" →
        wsInboundStep user now f1 f2 f3 m =
          InboundAction.reply
            { id := f3, type := "error", senderID := "server",
              recipientID := user, content := "消息缺少接收者ID",
              timestamp := now }) ∧
      (m.type ≠ "message" →
        wsInboundStep user now f1 f2 f3 m = InboundAction.dropFrame) := by
  refine ⟨?_, ?_, ?_⟩
  · by_cases htz : m.timestamp = 0 <;>
      simp [handleMessage, htz, hr, hg, h1, h2, h3]
  · intro hmsg
    by_cases htz : m.timestamp = 0 <;>
      simp [wsInboundStep, htz, hr, hmsg, h1, h3]
  · intro hmsg
    by_cases htz : m.timestamp = 0 <;>
      simp [wsInboundStep, htz, hr, hmsg, h1, h3]

/-- Witness for C7_missing_recipient_amended at a concrete "image"
message without recipient. -/
theorem C7_missing_recipient_amended_witness :
    handleMessage {} "u1" 1700000001 "c1" "s1"
        { type := "image", content := "pic" } =
      HandleOutcome.errorReply
        { type := "error", senderID := "server", recipientID := "u1",
          content := "消息缺少接收者ID", timestamp := 1700000001 } ∧
      (({ type := "image", content := "pic" } : Message).type = "message" →
        wsInboundStep "u1" 1700000001 "c2" "p2" "e2"
            { type := "image", content := "pic" } =
          InboundAction.reply
            { id := "e2", type := "error", senderID := "server",
              recipientID := "u1", content := "消息缺少接收者ID",
              timestamp := 1700000001 }) ∧
      (({ type := "image", content := "pic" } : Message).type ≠ "message" →
        wsInboundStep "u1" 1700000001 "c2" "p2" "e2"
            { type := "image", content := "pic" } =
          InboundAction.dropFrame) :=
  C7_missing_recipient_amended {} "u1" 1700000001 "c1" "s1" "c2" "p2" "e2"
    { type := "image", content := "pic" }
    rfl rfl (by decide) (by decide) (by decide)

/-- Claim C8: right after a connection registers, the redis manager
asynchronously replays offline messages (RegisterConnection spawns
sendOfflineMessages; the spawned call is modelled sequentially here).
The fetched list contains exactly the rows of the user with status
"unsent", in ascending timestamp order; each fetched message is fed back
through SendMessage, which appends it to the local delivery queue
(provided the queue has room, the claim presumes no overflow); and after
the replay every fetched id has status "sent" in the store. -/
theorem C8_offline_replay (st : RmState) (user : String)
    (hcap : st.messageQueue.length +
        (RM.GetOfflineMessages st.db user).length ≤ messageQueueCap) :
    List.Pairwise (fun a b => a.timestamp ≤ b.timestamp)
        (RM.GetOfflineMessages st.db user) ∧
      (∀ x ∈ RM.GetOfflineMessages st.db user,
        x.recipientID = user ∧ x.status = "unsent") ∧
      (∀ r ∈ st.db, r.recipientID = user → r.status = "unsent" →
        r.id ∈ (RM.GetOfflineMessages st.db user).map (fun x => x.id)) ∧
      (RM.sendOfflineMessages st user).messageQueue =
        st.messageQueue ++ RM.GetOfflineMessages st.db user ∧
      (∀ r ∈ (RM.sendOfflineMessages st user).db,
        r.id ∈ (RM.GetOfflineMessages st.db user).map (fun x => x.id) →
          r.status = "sent") := by
  have hfold := foldl_SendMessage_queue (RM.GetOfflineMessages st.db user)
    st hcap
  refine ⟨?_, ?_, ?_, ?_, ?_⟩
  · unfold RM.GetOfflineMessages
    rw [List.pairwise_map]
    haveI : IsTotal DbMessage (fun a b => a.timestamp ≤ b.timestamp) :=
      ⟨fun a b => Int.le_total a.timestamp b.timestamp⟩
    haveI : IsTrans DbMessage (fun a b => a.timestamp ≤ b.timestamp) :=
      ⟨fun a b c hab hbc => le_trans hab hbc⟩
    have hP := List.sorted_insertionSort
      (fun a b : DbMessage => a.timestamp ≤ b.timestamp)
      (st.db.filter
        (fun r => decide (r.recipientID = user ∧ r.status = "unsent")))
    exact hP.imp (by intro a b hab; simpa using hab)
  · intro x hx
    unfold RM.GetOfflineMessages at hx
    rcases List.mem_map.mp hx with ⟨r, hr, hxr⟩
    rw [(List.perm_insertionSort _ _).mem_iff] at hr
    have hfp := (List.mem_filter.mp hr).2
    have hfp2 : r.recipientID = user ∧ r.status = "unsent" := by
      simpa using hfp
    rw [← hxr]
    exact ⟨rfl, hfp2.2⟩
  · intro r hr hru hrs
    unfold RM.GetOfflineMessages
    have hmem2 : r ∈ List.insertionSort
        (fun a b : DbMessage => a.timestamp ≤ b.timestamp)
        (st.db.filter
          (fun x => decide (x.recipientID = user ∧ x.status = "unsent"))) := by
      rw [(List.perm_insertionSort _ _).mem_iff]
      exact List.mem_filter.mpr ⟨hr, by simp [hru, hrs]⟩
    exact List.mem_map.mpr ⟨_, List.mem_map.mpr ⟨r, hmem2, rfl⟩, rfl⟩
  · unfold RM.sendOfflineMessages
    by_cases hnil : RM.GetOfflineMessages st.db user = []
    · simp [hnil]
    · rw [if_neg hnil]
      dsimp only
      exact hfold.1
  · intro r hr hid
    unfold RM.sendOfflineMessages at hr
    by_cases hnil : RM.GetOfflineMessages st.db user = []
    · rw [hnil] at hid
      simp at hid
    · rw [if_neg hnil] at hr
      dsimp only at hr
      unfold RM.MarkOfflineMessagesAsSent at hr
      rw [if_neg hnil, hfold.2] at hr
      dsimp only at hr
      rcases List.mem_map.mp hr with ⟨r0, hr0, hfr⟩
      by_cases hin : r0.id ∈ (RM.GetOfflineMessages st.db user).map
          (fun m => m.id)
      · rw [← hfr]
        simp [hin]
      · have hrr : r = r0 := by rw [← hfr]; simp [hin]
        rw [hrr] at hid
        exact absurd hid hin

/-- Witness for C8_offline_replay: two unsent rows for "u2" stored out of
timestamp order plus one row for another user. -/
theorem C8_offline_replay_witness :
    List.Pairwise (fun a b => a.timestamp ≤ b.timestamp)
        (RM.GetOfflineMessages
          [{ id := "m2", conversationID := "c", senderID := "u1",
             recipientID := "u2", content := "b", contentType := "message",
             status := "unsent", timestamp := 20 },
           { id := "m1", conversationID := "c", senderID := "u1",
             recipientID := "u2", content := "a", contentType := "message",
             status := "unsent", timestamp := 10 },
           { id := "m3", conversationID := "c", senderID := "u1",
             recipientID := "u3", content := "x", contentType := "message",
             status := "unsent", timestamp := 5 }] "u2") ∧
      (∀ x ∈ RM.GetOfflineMessages
          [{ id := "m2", conversationID := "c", senderID := "u1",
             recipientID := "u2", content := "b", contentType := "message",
             status := "unsent", timestamp := 20 },
           { id := "m1", conversationID := "c", senderID := "u1",
             recipientID := "u2", content := "a", contentType := "message",
             status := "unsent", timestamp := 10 },
           { id := "m3", conversationID := "c", senderID := "u1",
             recipientID := "u3", content := "x", contentType := "message",
             status := "unsent", timestamp := 5 }] "u2",
        x.recipientID = "u2" ∧ x.status = "unsent") ∧
      (∀ r ∈ ({ db :=
          [{ id := "m2", conversationID := "c", senderID := "u1",
             recipientID := "u2", content := "b", contentType := "message",
             status := "unsent", timestamp := 20 },
           { id := "m1", conversationID := "c", senderID := "u1",
             recipientID := "u2", content := "a", contentType := "message",
             status := "unsent", timestamp := 10 },
           { id := "m3", conversationID := "c", senderID := "u1",
             recipientID := "u3", content := "x", contentType := "message",
             status := "unsent", timestamp := 5 }] } : RmState).db,
        r.recipientID = "u2" → r.status = "unsent" →
          r.id ∈ (RM.GetOfflineMessages
            [{ id := "m2", conversationID := "c", senderID := "u1",
               recipientID := "u2", content := "b", contentType := "message",
               status := "unsent", timestamp := 20 },
             { id := "m1", conversationID := "c", senderID := "u1",
               recipientID := "u2", content := "a", contentType := "message",
               status := "unsent", timestamp := 10 },
             { id := "m3", conversationID := "c", senderID := "u1",
               recipientID := "u3", content := "x", contentType := "message",
               status := "unsent", timestamp := 5 }] "u2").map
            (fun x => x.id)) ∧
      (RM.sendOfflineMessages
          { db :=
            [{ id := "m2", conversationID := "c", senderID := "u1",
               recipientID := "u2", content := "b", contentType := "message",
               status := "unsent", timestamp := 20 },
             { id := "m1", conversationID := "c", senderID := "u1",
               recipientID := "u2", content := "a", contentType := "message",
               status := "unsent", timestamp := 10 },
             { id := "m3", conversationID := "c", senderID := "u1",
               recipientID := "u3", content := "x", contentType := "message",
               status := "unsent", timestamp := 5 }] } "u2").messageQueue =
        [] ++ RM.GetOfflineMessages
          [{ id := "m2", conversationID := "c", senderID := "u1",
             recipientID := "u2", content := "b", contentType := "message",
             status := "unsent", timestamp := 20 },
           { id := "m1", conversationID := "c", senderID := "u1",
             recipientID := "u2", content := "a", contentType := "message",
             status := "unsent", timestamp := 10 },
           { id := "m3", conversationID := "c", senderID := "u1",
             recipientID := "u3", content := "x", contentType := "message",
             status := "unsent", timestamp := 5 }] "u2" ∧
      (∀ r ∈ (RM.sendOfflineMessages
          { db :=
            [{ id := "m2", conversationID := "c", senderID := "u1",
               recipientID := "u2", content := "b", contentType := "message",
               status := "unsent", timestamp := 20 },
             { id := "m1", conversationID := "c", senderID := "u1",
               recipientID := "u2", content := "a", contentType := "message",
               status := "unsent", timestamp := 10 },
             { id := "m3", conversationID := "c", senderID := "u1",
               recipientID := "u3", content := "x", contentType := "message",
               status := "unsent", timestamp := 5 }] } "u2").db,
        r.id ∈ (RM.GetOfflineMessages
          [{ id := "m2", conversationID := "c", senderID := "u1",
             recipientID := "u2", content := "b", contentType := "message",
             status := "unsent", timestamp := 20 },
           { id := "m1", conversationID := "c", senderID := "u1",
             recipientID := "u2", content := "a", contentType := "message",
             status := "unsent", timestamp := 10 },
           { id := "m3", conversationID := "c", senderID := "u1",
             recipientID := "u3", content := "x", contentType := "message",
             status := "unsent", timestamp := 5 }] "u2").map
          (fun x => x.id) → r.status = "sent") :=
  C8_offline_replay
    { db :=
      [{ id := "m2", conversationID := "c", senderID := "u1",
         recipientID := "u2", content := "b", contentType := "message",
         status := "unsent", timestamp := 20 },
       { id := "m1", conversationID := "c", senderID := "u1",
         recipientID := "u2", content := "a", contentType := "message",
         status := "unsent", timestamp := 10 },
       { id := "m3", conversationID := "c", senderID := "u1",
         recipientID := "u3", content := "x", contentType := "message",
         status := "unsent", timestamp := 5 }] } "u2" (by decide)

/-- Claim C9 counterexample: the claim says a session with no pong and no
client traffic for 120 seconds reaches the terminal state on both
WebSocket and TCP.  On the enhanced TCP read loop the read deadline is
PongWait = 60 s, and a read timeout is swallowed with continue, so an
idle TCP session is never closed by the heartbeat mechanism. -/
theorem C9_counterexample_tcp_timeout_swallowed :
    tcpReadTimeoutStep = ReadLoopStep.continueLoop ∧
      ReadLoopStep.continueLoop ≠ ReadLoopStep.exitLoop ∧
      PongWait = 60 * nsPerSecond := by
  decide

/-- Claim C9 amended: the server-side ping ticker fires every
PingPeriod = (PongWait * 9) / 10 = 54 s, as claimed, on both transports
(both StartWriting loops send an application-level ping on the tick).
The 120-second silence bound holds only on WebSocket: its read deadline
is PongWait * 2 = 120 s and expiry exits the read loop, closing the
session.  On enhanced TCP the deadline is PongWait = 60 s and a timeout
merely continues the loop, so silence never terminates a TCP session. -/
theorem C9_heartbeat_amended :
    PingPeriod = 54 * nsPerSecond ∧
      wsReadDeadline = 120 * nsPerSecond ∧
      tcpReadDeadline = 60 * nsPerSecond ∧
      wsReadTimeoutStep = ReadLoopStep.exitLoop ∧
      tcpReadTimeoutStep = ReadLoopStep.continueLoop := by
  decide

/-- Claim C10: the spec says the session layer never panics and
SendMessage on a closed connection returns an error.  This holds for the
WebSocket and enhanced connections, whose SendMessage first checks the
done channel, but the plain TCPConnection.SendMessage has no such check:
after Close the send channel is closed, and in a Go select a send on a
closed channel is always ready and panics.  The claim is right about the
intent (the other implementations guard) and the plain TCP
implementation is the slip. -/
theorem C10_plain_tcp_send_after_close_panics :
    TCPConnection.SendMessage (connClose {}) = SendMsgResult.panicked ∧
      WebSocketConnection.SendMessage (connClose {}) =
        SendMsgResult.errClosed := by
  decide
